import Mathlib

/-!
Verification development for the VCB blueprint bot (`src/main.py`).

The Python program decodes a "VCB+"/"bVCB+"-prefixed, base64-encoded,
block-structured binary blueprint (`parseBlueprint`), produces a pixel
statistics report (`getstats`) and renders the logic layer to an image
(`render`/`saveImage`).  The embedding below translates those functions
into Lean over `List Nat` byte buffers.

External primitives that the source calls but does not define are passed
in as function parameters rather than modelled:
  * `zstd.uncompress` becomes an `Uncompress` oracle
    (`none` models the decompression raising an exception);
  * `base64.b64decode` becomes a `B64` oracle
    (`none` models the base64 module raising);
  * the PIL icon compositing of `LogicIcons.addIcons` becomes an
    `AddIcons` parameter of `saveImage` (the claims about rendering only
    concern whether that step runs, not what PIL computes).

Python runtime exceptions are modelled explicitly: the program's own
`InvalidBlueprintException` raises are `PyError.invalidBlueprint`, every
other raised exception (the bare `Exception` raises on the zstd path,
`IndexError`, `TypeError`) is a `PyError.generic`.
-/

namespace VcbBot

/-- One RGBA pixel value, as the tuple built on line 212 of the source. -/
abbrev Rgba := Nat × Nat × Nat × Nat

/-- A raised Python exception: either the program's own
`InvalidBlueprintException` or any other exception class (the source
raises a bare `Exception` in two places, and the runtime raises
`TypeError`/`IndexError` on bad indexing). -/
inductive PyError where
  | invalidBlueprint (msg : String)
  | generic (msg : String)
deriving DecidableEq

/-- The decoded blueprint object (class `Blueprint` in the source).
`logicImage` is `none` when the attribute is set to Python `None`
(no `layerID == 0` block was found). -/
structure Blueprint where
  version : Nat
  checksum : List Nat
  width : Nat
  height : Nat
  logicImage : Option (List Nat)
deriving DecidableEq

/-- Oracle for `zstd.uncompress`; `none` models the library raising. -/
abbrev Uncompress := List Nat → Option (List Nat)

/-- Oracle for `base64.b64decode`; `none` models the library raising. -/
abbrev B64 := List Char → Option (List Nat)

/-- `int.from_bytes(bs, "big")`: big-endian interpretation of the bytes
that are actually present (an empty slice reads as 0). -/
def intFromBytesBE (bs : List Nat) : Nat :=
  bs.foldl (fun acc b => 256 * acc + b) 0

/-- Python slicing `b[i:j]` for `0 ≤ i`, clamped at the ends exactly as
Python clamps (a short or empty buffer yields a short or empty slice,
never an error). -/
def pySlice (b : List Nat) (i j : Nat) : List Nat :=
  (b.drop i).take (j - i)

/-- `int.from_bytes(blueprint[curpos:curpos+4], "big")` (line 177). -/
def blockSizeAt (body : List Nat) (p : Nat) : Nat :=
  intFromBytesBE (pySlice body p (p + 4))

/-- `int.from_bytes(blueprint[curpos+4:curpos+8], "big")` (line 178). -/
def layerIDAt (body : List Nat) (p : Nat) : Nat :=
  intFromBytesBE (pySlice body (p + 4) (p + 8))

/-- `int.from_bytes(blueprint[curpos+8:curpos+12], "big")` (line 179). -/
def imageSizeAt (body : List Nat) (p : Nat) : Nat :=
  intFromBytesBE (pySlice body (p + 8) (p + 12))

/-- `blueprint[curpos+12:curpos+blockSize]`, the compressed payload of the
block starting at `p` (line 185). -/
def payloadAt (body : List Nat) (p : Nat) : List Nat :=
  pySlice body (p + 12) (p + blockSizeAt body p)

/-- The `while curpos < len(blueprint)` block loop of `parseBlueprint`
(lines 176-192), written with an explicit fuel so that the recursion is
structural; `none` is the out-of-fuel marker.  `c7_block_loop_terminates`
proves that `body.length` fuel always suffices, i.e. the source loop
terminates on every input. -/
def parseBlocksFuel (u : Uncompress) (body : List Nat) :
    Nat → Nat → Option (List Nat) → Option (Except PyError (Option (List Nat)))
  | 0, curpos, image =>
    if curpos < body.length then none else some (.ok image)
  | fuel + 1, curpos, image =>
    if curpos < body.length then
      if blockSizeAt body curpos < 12 then
        some (.error (.invalidBlueprint
          ("Invalid vcb blueprint - invalid layer block size: " ++ toString (blockSizeAt body curpos))))
      else if layerIDAt body curpos = 0 then
        match u (payloadAt body curpos) with
        | none => some (.error (.generic "Invalid vcb blueprint - zstd error"))
        | some img =>
          if img.length ≠ imageSizeAt body curpos then
            some (.error (.generic
              ("Invalid vcb blueprint - unexpected image size: " ++ toString (imageSizeAt body curpos))))
          else parseBlocksFuel u body fuel (curpos + blockSizeAt body curpos) (some img)
      else parseBlocksFuel u body fuel (curpos + blockSizeAt body curpos) image
    else some (.ok image)

/-- The block start offsets the loop visits from `curpos` on (the offset of
an undersized block is still visited: its header is read before the size
check fails). -/
def blockPositionsFuel (body : List Nat) : Nat → Nat → List Nat
  | 0, _ => []
  | fuel + 1, curpos =>
    if curpos < body.length then
      if blockSizeAt body curpos < 12 then [curpos]
      else curpos :: blockPositionsFuel body fuel (curpos + blockSizeAt body curpos)
    else []

/-- All block start offsets of a decoded body (the walk starts at 17). -/
def blockPositions (body : List Nat) : List Nat :=
  blockPositionsFuel body body.length 17

/-- Lines 164-201 of `parseBlueprint`: header parsing and the block loop,
applied to the base64-decoded byte body. -/
def parseBlueprintBytes (u : Uncompress) (body : List Nat) : Except PyError Blueprint :=
  if intFromBytesBE (pySlice body 0 3) ≠ 0 then
    .error (.invalidBlueprint
      ("Invalid vcb blueprint - unexpected version number: " ++ toString (intFromBytesBE (pySlice body 0 3))))
  else if intFromBytesBE (pySlice body 9 13) * intFromBytesBE (pySlice body 13 17) = 0 then
    .error (.invalidBlueprint "Invalid vcb blueprint - blueprint is 0x0")
  else
    match (parseBlocksFuel u body body.length 17 none).getD
        (.error (.generic "unreachable: loop fuel exhausted")) with
    | .error e => .error e
    | .ok image =>
      .ok { version := intFromBytesBE (pySlice body 0 3)
            checksum := pySlice body 3 9
            width := intFromBytesBE (pySlice body 9 13)
            height := intFromBytesBE (pySlice body 13 17)
            logicImage := image }

/-- Python `s.replace(old, new)` on character lists: replace every
non-overlapping occurrence left to right.  Fuel is the string length
(each step consumes at least one character, so it always suffices). -/
def replaceAllFuel (old new : List Char) : Nat → List Char → List Char
  | 0, s => s
  | _fuel + 1, [] => []
  | fuel + 1, c :: rest =>
    if old ≠ [] ∧ old.isPrefixOf (c :: rest) then
      new ++ replaceAllFuel old new fuel (rest.drop (old.length - 1))
    else c :: replaceAllFuel old new fuel rest

/-- Python `s.replace(old, new)` (used on lines 149-150 of the source). -/
def replaceAll (old new s : List Char) : List Char :=
  replaceAllFuel old new s.length s

/-- `parseBlueprint` (lines 148-201): strip chat formatting, check and
strip the `VCB+`/`bVCB+` header, base64-decode, then parse the body.
Note the source strips `VCB+` and then independently re-tests the result
for a `bVCB+` leader, exactly as mirrored here. -/
def parseBlueprint (b64 : B64) (u : Uncompress) (s : List Char) : Except PyError Blueprint :=
  let s1 := replaceAll "```".data [] s
  let s2 := replaceAll [Char.ofNat 39] [] s1
  if ¬("VCB+".data.isPrefixOf s2 ∨ "bVCB+".data.isPrefixOf s2) then
    .error (.invalidBlueprint "Invalid vcb blueprint - header error")
  else
    let s3 := if "VCB+".data.isPrefixOf s2 then s2.drop 4 else s2
    let s4 := if "bVCB+".data.isPrefixOf s3 then s3.drop 5 else s3
    match b64 s4 with
    | none => .error (.invalidBlueprint "Invalid vcb blueprint - base64 error")
    | some body => parseBlueprintBytes u body

/-- The Python dict update
`counts[rgb] = (counts[rgb] if rgb in counts else 0) + 1` (line 213),
on an insertion-ordered association list. -/
def bump : List (Rgba × Nat) → Rgba → List (Rgba × Nat)
  | [], k => [(k, 1)]
  | (k0, v) :: rest, k =>
    if k0 = k then (k0, v + 1) :: rest else (k0, v) :: bump rest k

/-- `counts[rgba] if rgba in counts else` absent (lines 232-237). -/
def lookupCount : List (Rgba × Nat) → Rgba → Option Nat
  | [], _ => none
  | (k, v) :: rest, key => if k = key then some v else lookupCount rest key

/-- The pixel scan `for i in range(0, len(image), 4)` of `getstats`
(lines 210-214): each step reads `image[i+3]` first (an `IndexError` when
fewer than 4 bytes remain), skips fully transparent pixels and counts
opaque ones in the frequency table and in `area`. -/
def scanGo : List (Rgba × Nat) → Nat → List Nat → Except PyError (List (Rgba × Nat) × Nat)
  | counts, area, [] => .ok (counts, area)
  | _, _, [_] => .error (.generic "IndexError: bytearray index out of range")
  | _, _, [_, _] => .error (.generic "IndexError: bytearray index out of range")
  | _, _, [_, _, _] => .error (.generic "IndexError: bytearray index out of range")
  | counts, area, r :: g :: b :: a :: rest =>
    if 0 < a then scanGo (bump counts (r, g, b, a)) (area + 1) rest
    else scanGo counts area rest

/-- The value `int(100.0 * n / total + 0.5)` of the local `percent`
helper (line 226), in exact integer arithmetic:
`⌊(100*n/total) + 1/2⌋ = (200*n + total) / (2*total)`.
The source computes the expression in double precision; for every count
and total the program can produce (counts are at most `2^30`, bounded by
the u32 block size) the double-precision result truncates to the same
integer, so the exact model is faithful on the reachable domain. -/
def percentVal (n total : Nat) : Nat :=
  (200 * n + total) / (2 * total)

/-- The string `f" ({int(100.0 * n / total + 0.5)}%)"` (line 226). -/
def percentStr (n total : Nat) : String :=
  " (" ++ toString (percentVal n total) ++ "%)"

/-- Python `name.startswith(pre)`. -/
def strStartsWith (s pre : String) : Bool :=
  pre.data.isPrefixOf s.data

/-- One call of the local `countMessage` helper (lines 228-237), folded
over the state `(totalmessage, tracecount, buscount)`. -/
def countMessage (wh : Nat) (counts : List (Rgba × Nat))
    (st : List String × Nat × Nat) (name : String) (rgba : Rgba) :
    List String × Nat × Nat :=
  match lookupCount counts rgba with
  | none => st
  | some c =>
    if 0 < c ∧ ¬(strStartsWith name "Bus" ∨ strStartsWith name "Trace") then
      (st.1 ++ [name ++ " pixels: " ++ toString c ++ percentStr c wh ++ ", "], st.2.1, st.2.2)
    else if strStartsWith name "Trace" then (st.1, st.2.1 + c, st.2.2)
    else if strStartsWith name "Bus" then (st.1, st.2.1, st.2.2 + c)
    else st

/-- The 48 `countMessage` calls of `getstats` (lines 239-286), in source
order with the exact RGBA literals. -/
def categoryList : List (String × Rgba) :=
  [("Cross", (102, 120, 142, 255)),
   ("Tunnel", (83, 85, 114, 255)),
   ("Mesh", (100, 106, 87, 255)),
   ("Bus1", (122, 47, 36, 255)),
   ("Bus2", (62, 122, 36, 255)),
   ("Bus3", (36, 65, 122, 255)),
   ("Bus4", (37, 98, 122, 255)),
   ("Bus5", (122, 45, 102, 255)),
   ("Bus6", (122, 112, 36, 255)),
   ("Write", (77, 56, 62, 255)),
   ("Read", (46, 71, 93, 255)),
   ("Trace1", (42, 53, 65, 255)),
   ("Trace2", (159, 168, 174, 255)),
   ("Trace3", (161, 85, 94, 255)),
   ("Trace4", (161, 108, 86, 255)),
   ("Trace5", (161, 133, 86, 255)),
   ("Trace6", (161, 152, 86, 255)),
   ("Trace7", (153, 161, 86, 255)),
   ("Trace8", (136, 161, 86, 255)),
   ("Trace9", (108, 161, 86, 255)),
   ("Trace10", (86, 161, 141, 255)),
   ("Trace11", (86, 147, 161, 255)),
   ("Trace12", (86, 123, 161, 255)),
   ("Trace13", (86, 98, 161, 255)),
   ("Trace14", (102, 86, 161, 255)),
   ("Trace15", (135, 86, 161, 255)),
   ("Trace16", (161, 85, 151, 255)),
   ("Buffer", (146, 255, 99, 255)),
   ("And", (255, 198, 99, 255)),
   ("Or", (99, 242, 255, 255)),
   ("Xor", (174, 116, 255, 255)),
   ("Not", (255, 98, 138, 255)),
   ("Nand", (255, 162, 0, 255)),
   ("Nor", (48, 217, 255, 255)),
   ("Xnor", (166, 0, 255, 255)),
   ("LatchOn", (99, 255, 159, 255)),
   ("LatchOff", (56, 77, 71, 255)),
   ("Clock", (255, 0, 65, 255)),
   ("LED", (255, 255, 255, 255)),
   ("Timer", (255, 103, 0, 255)),
   ("Random", (229, 255, 0, 255)),
   ("Break", (224, 0, 0, 255)),
   ("Wifi0", (255, 0, 191, 255)),
   ("Wifi1", (255, 0, 175, 255)),
   ("Wifi2", (255, 0, 159, 255)),
   ("Wifi3", (255, 0, 143, 255)),
   ("Annotation", (58, 69, 81, 255)),
   ("Filler", (140, 171, 161, 255))]

/-- One lowercase hex digit. -/
def hexDigit (n : Nat) : Char :=
  if n < 10 then Char.ofNat (48 + n) else Char.ofNat (87 + n)

/-- Two lowercase hex digits of one byte. -/
def byteHex (b : Nat) : String :=
  String.mk [hexDigit (b / 16 % 16), hexDigit (b % 16)]

/-- Python `bytes.hex()` (line 218). -/
def bytesHex (bs : List Nat) : String :=
  String.join (bs.map byteHex)

/-- `len(None)` raising inside `getstats` when the blueprint has no logic
layer (line 210 with `image = None`). -/
def noneLenError : PyError :=
  .generic "TypeError: object of type NoneType has no len()"

/-- `bytearray(None)` raising inside `fillBackground` when `render` passes
a missing logic image (line 299 with `image = None`). -/
def noneBytearrayError : PyError :=
  .generic "TypeError: cannot convert NoneType object to bytearray"

/-- Lines 207-294 of `getstats`, applied to an already-parsed blueprint:
the pixel scan, the header lines, the 48 `countMessage` calls, the
conditional aggregated Trace and Bus lines and the Used-area line.
Note on the Bus line (line 291): the source computes the percentage from
`tracecount`, not `buscount`; the model reproduces that. -/
def getstatsFromBlueprint (bp : Blueprint) : Except PyError (List String) :=
  match bp.logicImage with
  | none => .error noneLenError
  | some image =>
    match scanGo [] 0 image with
    | .error e => .error e
    | .ok (counts, area) =>
      let wh := bp.width * bp.height
      let header : List String :=
        ["```\n",
         "checksum: " ++ bytesHex bp.checksum ++ "\n",
         "width:    " ++ toString bp.width ++ "\n",
         "height:   " ++ toString bp.height ++ "\n",
         "-----------\n"]
      let st := categoryList.foldl (fun st nc => countMessage wh counts st nc.1 nc.2) (header, 0, 0)
      let msgs1 := if 0 < st.2.1
        then st.1 ++ ["Trace pixels: " ++ toString st.2.1 ++ percentStr st.2.1 wh ++ ", "]
        else st.1
      let msgs2 := if 0 < st.2.2
        then msgs1 ++ ["Bus pixels: " ++ toString st.2.2 ++ percentStr st.2.1 wh ++ ", "]
        else msgs1
      .ok (msgs2 ++ ["Used area: " ++ toString area ++ percentStr area wh ++ ", ", "```"])

/-- `getstats` (lines 204-294). -/
def getstats (b64 : B64) (u : Uncompress) (s : List Char) : Except PyError (List String) :=
  match parseBlueprint b64 u s with
  | .error e => .error e
  | .ok bp => getstatsFromBlueprint bp

/-- Reading `l[i]` on a Python bytearray: a value when in range, an
`IndexError` otherwise. -/
def pyIndex (l : List Nat) (i : Nat) : Except PyError Nat :=
  match l.get? i with
  | some v => .ok v
  | none => .error (.generic "IndexError: index out of range")

/-- The loop of `fillBackground` (lines 300-305):
`for offset in range(0, 4*width*height, 4)` reads `image[offset+3]` and,
when the pixel is fully transparent, overwrites it with the opaque
background color 30,36,49,255.  Fuel is the raw range bound, which covers
every iteration (the step only consumes one fuel per 4 offsets). -/
def fbGo (stop : Nat) : Nat → List Nat → Nat → Except PyError (List Nat)
  | 0, image, offset =>
    if offset < stop then .error (.generic "unreachable: loop fuel exhausted") else .ok image
  | fuel + 1, image, offset =>
    if offset < stop then
      match image.get? (offset + 3) with
      | none => .error (.generic "IndexError: bytearray index out of range")
      | some a =>
        if a = 0 then
          fbGo stop fuel ((((image.set offset 30).set (offset + 1) 36).set (offset + 2) 49).set (offset + 3) 255) (offset + 4)
        else fbGo stop fuel image (offset + 4)
    else .ok image

/-- `fillBackground` (lines 298-306).  The `bytearray(image)` copy is
implicit in the functional model. -/
def fillBackground (image : List Nat) (width height : Nat) : Except PyError (List Nat) :=
  fbGo (4 * width * height) (4 * width * height) image 0

/-- `zoomImage` (lines 308-326): identity at zoom 1, otherwise write each
source pixel into a `zoom × zoom` block of a zero-initialised destination
buffer of `4*width*height*zoom*zoom` bytes, in the source's loop order.
Reading a byte of a short source slice is an `IndexError`, as in Python
(the destination writes are provably in range, so `List.set` is exact). -/
def zoomImage (image : List Nat) (width height zoom : Nat) : Except PyError (List Nat) :=
  if zoom = 1 then .ok image
  else
    (List.range height).foldlM (fun zimage y =>
      (List.range width).foldlM (fun zimage x =>
        (List.range zoom).foldlM (fun zimage dy =>
          (List.range zoom).foldlM (fun zimage dx => do
            let pixel := pySlice image (4 * x + y * (4 * width)) (4 * x + y * (4 * width) + 4)
            let dsto := (y * zoom + dy) * (4 * width * zoom) + 4 * (x * zoom + dx)
            let p0 ← pyIndex pixel 0
            let p1 ← pyIndex pixel 1
            let p2 ← pyIndex pixel 2
            let p3 ← pyIndex pixel 3
            pure ((((zimage.set dsto p0).set (dsto + 1) p1).set (dsto + 2) p2).set (dsto + 3) p3))
          zimage)
        zimage)
      zimage)
      (List.replicate (4 * width * height * zoom * zoom) 0)

/-- The row split `[logic[i:i+4*width] for i in range(0, len(logic), 4*width)]`
(line 337).  Fuel is the list length; the stride is `4*width ≥ 4` on every
reachable call (`width ≥ 1` after the zero-area decode check). -/
def chunkRowsFuel (stride : Nat) : Nat → List Nat → List (List Nat)
  | 0, _ => []
  | _fuel + 1, [] => []
  | fuel + 1, l => l.take stride :: chunkRowsFuel stride fuel (l.drop stride)

/-- The list of pixel rows handed to `LogicIcons.addIcons` (line 337). -/
def chunkRows (l : List Nat) (stride : Nat) : List (List Nat) :=
  chunkRowsFuel stride l.length l

/-- Abstraction of `LogicIcons.addIcons` combined with the preceding
`icons.resize(zoom)` (lines 338-339): given the logic rows, the zoomed
canvas bytes and the zoom, produce the composited canvas bytes.  The PIL
glyph blending itself is external to the source under verification. -/
abbrev AddIcons := List (List Nat) → List Nat → Nat → List Nat

/-- `zoom = int(zoom); if zoom < 1: zoom = 1` (lines 329-331). -/
def clamp1 (zoom : Nat) : Nat :=
  if zoom < 1 then 1 else zoom

/-- `saveImage` (lines 328-341): background fill, nearest-neighbour zoom,
and — only when the clamped zoom is at least 6 — the icon overlay on the
zoomed canvas using the pre-fill logic bytes split into rows.  The
`Image.frombytes`/`Image.save` conversion is treated as the identity on
the byte buffer (it only re-labels the bytes with their dimensions).
A `None` logic buffer raises in `bytearray(image)` (line 299). -/
def saveImage (addIcons : AddIcons) (logic : Option (List Nat)) (width height zoom : Nat) :
    Except PyError (List Nat) :=
  match logic with
  | none => .error noneBytearrayError
  | some logicBytes =>
    match fillBackground logicBytes width height with
    | .error e => .error e
    | .ok image =>
      match zoomImage image width height (clamp1 zoom) with
      | .error e => .error e
      | .ok pimage =>
        if 6 ≤ clamp1 zoom then
          .ok (addIcons (chunkRows logicBytes (4 * width)) pimage (clamp1 zoom))
        else .ok pimage

/-- The zoom selection of `render` (lines 345-349):
`zoom = int(1400 / bp.width)`, clamped to `[1, 24]`.  The double-precision
division truncates to exactly `1400 / width` (floor) for every `width ≥ 1`;
`width = 0` cannot reach this point (the decoder rejects zero-area
blueprints, and in Python it would raise `ZeroDivisionError`). -/
def zoomFor (width : Nat) : Nat :=
  if 1400 / width < 1 then 1
  else if 1400 / width > 24 then 24
  else 1400 / width

/-- The call `saveImage("tempimage.png", bp.logicImage, bp.width, bp.height, zoom)`
of `render` (line 350). -/
def renderFromBlueprint (addIcons : AddIcons) (bp : Blueprint) : Except PyError (List Nat) :=
  saveImage addIcons bp.logicImage bp.width bp.height (zoomFor bp.width)

/-- `render` (lines 297-350), producing the final raster bytes. -/
def render (addIcons : AddIcons) (b64 : B64) (u : Uncompress) (s : List Char) :
    Except PyError (List Nat) :=
  match parseBlueprint b64 u s with
  | .error e => .error e
  | .ok bp => renderFromBlueprint addIcons bp

/-- Number of opaque pixels (`alpha > 0`) in 4-byte strides. -/
def opaqueCount : List Nat → Nat
  | _r :: _g :: _b :: a :: rest => (if 0 < a then 1 else 0) + opaqueCount rest
  | _ => 0

/-- Number of fully transparent pixels (`alpha = 0`) in 4-byte strides. -/
def transparentCount : List Nat → Nat
  | _r :: _g :: _b :: a :: rest => (if a = 0 then 1 else 0) + transparentCount rest
  | _ => 0

/-- Total pixel count stored in the scan's frequency table. -/
def sumVals (d : List (Rgba × Nat)) : Nat :=
  (d.map Prod.snd).sum

/-! Concrete inputs used by the counterexample and evaluation theorems.
A 17-byte header with version 0, zero checksum and a 1×1 pixel area,
followed by one 13-byte layer block. -/

/-- Header of a valid 1×1 blueprint body. -/
def hdr11 : List Nat := [0, 0, 0, 0, 0, 0, 0, 0, 0, 0, 0, 0, 1, 0, 0, 0, 1]

/-- A 1×1 body whose single `layerID = 0` block declares `imageSize = 8`. -/
def c1cBody : List Nat := hdr11 ++ [0, 0, 0, 13, 0, 0, 0, 0, 0, 0, 0, 8, 7]

/-- A decompressor returning 8 bytes (two opaque pixels); real zstd admits
payloads decompressing to any length, so this instantiates the oracle. -/
def c1cU : Uncompress := fun _ => some [1, 1, 1, 255, 2, 2, 2, 255]

/-- C1 counterexample: the claim says a successfully decoded Blueprint
always has `logicImage` of length `width*height*4`.  On this input decode
succeeds with a `width*height*4 = 4` blueprint whose logic image has
length 8: the decoder only checks the decompressed length against the
block's declared `imageSize` (8 here), never against `width*height*4`. -/
theorem c1_counterexample :
    parseBlueprintBytes c1cU c1cBody =
      .ok { version := 0, checksum := [0, 0, 0, 0, 0, 0], width := 1, height := 1,
            logicImage := some [1, 1, 1, 255, 2, 2, 2, 255] } ∧
    ([1, 1, 1, 255, 2, 2, 2, 255] : List Nat).length = 8 ∧ 1 * 1 * 4 = 4 ∧ (8 : Nat) ≠ 4 := by
  exact ⟨rfl, rfl, rfl, by decide⟩

/-- Decompressor for the C4 counterexample (8 opaque bytes, declared 8). -/
def c4cU : Uncompress := fun _ => some [1, 1, 1, 255, 2, 2, 2, 255]

/-- Body for the C4 counterexample, declaring `imageSize = 8`. -/
def c4cBody8 : List Nat := hdr11 ++ [0, 0, 0, 13, 0, 0, 0, 0, 0, 0, 0, 8, 7]

/-- C4 counterexample: for this successfully decoded Blueprint the stats
scan's frequency-table total plus the transparent-pixel count is 2, while
`width*height = 1`, so the claimed round-trip fails for a decoded
Blueprint whose logic image length differs from `width*height*4`. -/
theorem c4_counterexample :
    parseBlueprintBytes c4cU c4cBody8 =
      .ok { version := 0, checksum := [0, 0, 0, 0, 0, 0], width := 1, height := 1,
            logicImage := some [1, 1, 1, 255, 2, 2, 2, 255] } ∧
    scanGo [] 0 [1, 1, 1, 255, 2, 2, 2, 255] =
      .ok ([((1, 1, 1, 255), 1), ((2, 2, 2, 255), 1)], 2) ∧
    sumVals [((1, 1, 1, 255), 1), ((2, 2, 2, 255), 1)] +
      transparentCount [1, 1, 1, 255, 2, 2, 2, 255] = 2 ∧
    (1 : Nat) * 1 = 1 ∧ (2 : Nat) ≠ 1 := by
  exact ⟨rfl, rfl, rfl, rfl, by decide⟩

/-- A failing decompressor: `zstd.uncompress` raises on this payload. -/
def c2uFail : Uncompress := fun _ => none

/-- A decompressor returning 3 bytes where the block declares 4. -/
def c2uShort : Uncompress := fun _ => some [1, 2, 3]

/-- A 1×1 body with one `layerID = 0` block declaring `imageSize = 4`. -/
def c2Body : List Nat := hdr11 ++ [0, 0, 0, 13, 0, 0, 0, 0, 0, 0, 0, 4, 9]

/-- A body whose version field is 1. -/
def c2BodyBadVersion : List Nat :=
  [0, 0, 1] ++ [0, 0, 0, 0, 0, 0] ++ [0, 0, 0, 1] ++ [0, 0, 0, 1]

/-- A body declaring a 0×5 area. -/
def c2BodyZeroArea : List Nat :=
  [0, 0, 0] ++ [0, 0, 0, 0, 0, 0] ++ [0, 0, 0, 0] ++ [0, 0, 0, 5]

/-- A 1×1 body whose first block declares `blockSize = 4 < 12`. -/
def c2BodySmallBlock : List Nat := hdr11 ++ [0, 0, 0, 4, 0, 0, 0, 0, 0, 0, 0, 4]

/-- A base64 oracle that raises. -/
def c2b64Fail : B64 := fun _ => none

/-- A base64 oracle returning the empty body. -/
def c2b64Empty : B64 := fun _ => some []

/-- C2, evaluated on one input per documented failure cause: the five
causes the claim lists that the source raises via
`InvalidBlueprintException` (header, base64, version, zero area,
undersized block) do surface as `PyError.invalidBlueprint`, but the two
remaining causes — decompression failure and decompressed-size mismatch
(lines 187 and 190 of the source) — are raised as the bare `Exception`
class (`PyError.generic`), contradicting the claim that all seven causes
use the single `InvalidBlueprintException` type. -/
theorem c2_zstd_and_size_errors_are_generic_exceptions :
    parseBlueprintBytes c2uFail c2Body =
      .error (.generic "Invalid vcb blueprint - zstd error") ∧
    parseBlueprintBytes c2uShort c2Body =
      .error (.generic "Invalid vcb blueprint - unexpected image size: 4") ∧
    parseBlueprint c2b64Empty c2uFail "XYZ+AA".data =
      .error (.invalidBlueprint "Invalid vcb blueprint - header error") ∧
    parseBlueprint c2b64Fail c2uFail "VCB+AA".data =
      .error (.invalidBlueprint "Invalid vcb blueprint - base64 error") ∧
    parseBlueprintBytes c2uFail c2BodyBadVersion =
      .error (.invalidBlueprint "Invalid vcb blueprint - unexpected version number: 1") ∧
    parseBlueprintBytes c2uFail c2BodyZeroArea =
      .error (.invalidBlueprint "Invalid vcb blueprint - blueprint is 0x0") ∧
    parseBlueprintBytes c2uFail c2BodySmallBlock =
      .error (.invalidBlueprint "Invalid vcb blueprint - invalid layer block size: 4") ∧
    ∀ msg, PyError.generic msg ≠ PyError.invalidBlueprint msg := by
  refine ⟨rfl, rfl, rfl, rfl, rfl, rfl, rfl, fun msg h => ?_⟩
  cases h

/-- A 1×1 body with one `layerID = 0` block declaring `imageSize = 4`. -/
def c3Body : List Nat := hdr11 ++ [0, 0, 0, 13, 0, 0, 0, 0, 0, 0, 0, 4, 0]

/-- Decompressor producing one Bus1-coloured pixel (122, 47, 36, 255). -/
def c3U : Uncompress := fun _ => some [122, 47, 36, 255]

/-- Base64 oracle returning `c3Body`. -/
def c3B64 : B64 := fun _ => some c3Body

/-- C3, evaluated on a 1×1 blueprint consisting of a single Bus1 pixel:
the aggregated Bus line reports the correct pixel count 1 but the
percentage 0, because line 291 of the source computes the Bus line's
percentage from `tracecount` (0 here) instead of `buscount`; the
documented formula gives `percentVal 1 (1*1) = 100`. -/
theorem c3_bus_line_uses_trace_percent :
    getstats c3B64 c3U "VCB+AAAA".data =
      .ok ["```\n", "checksum: 000000000000\n", "width:    1\n", "height:   1\n",
           "-----------\n", "Bus pixels: 1 (0%), ", "Used area: 1 (100%), ", "```"] ∧
    percentVal 1 (1 * 1) = 100 ∧ (0 : Nat) ≠ 100 := by
  exact ⟨rfl, rfl, by decide⟩

/-- `bump` adds exactly one to the frequency-table total. -/
theorem sumVals_bump (d : List (Rgba × Nat)) (k : Rgba) :
    sumVals (bump d k) = sumVals d + 1 := by
  induction d with
  | nil => simp [bump, sumVals]
  | cons hd tl ih =>
    obtain ⟨k0, v⟩ := hd
    by_cases h : k0 = k
    · simp [bump, h, sumVals]
      omega
    · simp only [bump, if_neg h, sumVals, List.map_cons, List.sum_cons] at *
      omega

/-- The pixel scan succeeds on any buffer of 4-byte strides and its
frequency-table total and area both grow by the opaque-pixel count. -/
theorem scanGo_spec : ∀ (n : Nat) (l : List Nat), l.length ≤ n → l.length % 4 = 0 →
    ∀ d a, ∃ c' a', scanGo d a l = .ok (c', a') ∧
      sumVals c' = sumVals d + opaqueCount l ∧ a' = a + opaqueCount l := by
  intro n
  induction n with
  | zero =>
    intro l hl _hm d a
    have : l = [] := List.eq_nil_of_length_eq_zero (Nat.le_zero.mp hl)
    subst this
    exact ⟨d, a, rfl, by simp [opaqueCount], by simp [opaqueCount]⟩
  | succ n ih =>
    intro l hl hm d a
    match l with
    | [] => exact ⟨d, a, rfl, by simp [opaqueCount], by simp [opaqueCount]⟩
    | [_] => simp at hm
    | [_, _] => simp at hm
    | [_, _, _] => simp at hm
    | r :: g :: b :: al :: rest =>
      have hrest : rest.length ≤ n := by simp at hl; omega
      have hm4 : rest.length % 4 = 0 := by simp at hm; omega
      by_cases ha : 0 < al
      · obtain ⟨c', a', hsc, hsum, harea⟩ := ih rest hrest hm4 (bump d (r, g, b, al)) (a + 1)
        refine ⟨c', a', ?_, ?_, ?_⟩
        · simp only [scanGo, if_pos ha]
          exact hsc
        · rw [hsum, sumVals_bump]
          simp [opaqueCount, ha]
          omega
        · rw [harea]
          simp [opaqueCount, ha]
          omega
      · obtain ⟨c', a', hsc, hsum, harea⟩ := ih rest hrest hm4 d a
        refine ⟨c', a', ?_, ?_, ?_⟩
        · simp only [scanGo, if_neg ha]
          exact hsc
        · rw [hsum]
          simp [opaqueCount, ha]
        · rw [harea]
          simp [opaqueCount, ha]

/-- On a buffer of whole 4-byte strides every pixel is either opaque or
fully transparent, so the two counts add up to the pixel count. -/
theorem opaque_add_transparent : ∀ (n : Nat) (l : List Nat), l.length ≤ n → l.length % 4 = 0 →
    opaqueCount l + transparentCount l = l.length / 4 := by
  intro n
  induction n with
  | zero =>
    intro l hl _hm
    have : l = [] := List.eq_nil_of_length_eq_zero (Nat.le_zero.mp hl)
    subst this
    simp [opaqueCount, transparentCount]
  | succ n ih =>
    intro l hl hm
    match l with
    | [] => simp [opaqueCount, transparentCount]
    | [_] => simp at hm
    | [_, _] => simp at hm
    | [_, _, _] => simp at hm
    | r :: g :: b :: al :: rest =>
      have hrest : rest.length ≤ n := by simp at hl; omega
      have hm4 : rest.length % 4 = 0 := by simp at hm; omega
      have := ih rest hrest hm4
      simp only [opaqueCount, transparentCount, List.length_cons]
      have hlen : rest.length + 1 + 1 + 1 + 1 = rest.length + 4 := by omega
      rw [hlen, Nat.add_div_right _ (by norm_num)]
      rcases Nat.eq_zero_or_pos al with h0 | hpos
      · simp [h0] at *
        omega
      · have : ¬al = 0 := by omega
        simp [hpos, this] at *
        omega

/-- Successful decode determines the block-loop result: the loop ran with
fuel `body.length` from offset 17 on an initially absent image and
returned `bp.logicImage`. -/
theorem parseBlueprintBytes_ok_elim (u : Uncompress) (body : List Nat) (bp : Blueprint)
    (h : parseBlueprintBytes u body = .ok bp) :
    parseBlocksFuel u body body.length 17 none = some (.ok bp.logicImage) := by
  unfold parseBlueprintBytes at h
  split_ifs at h
  rcases hpb : parseBlocksFuel u body body.length 17 none with _ | r
  · rw [hpb] at h
    simp at h
  · rw [hpb] at h
    cases r with
    | error e => simp at h
    | ok image =>
      simp only [Option.getD_some] at h
      cases h
      rfl

/-- Shape of a successful block-loop run: the resulting image is either
the initial one, or the decompressed payload of some visited block with
`layerID = 0`, whose length the loop checked against that block's
declared image size. -/
theorem parseBlocksFuel_ok_inv (u : Uncompress) (body : List Nat) :
    ∀ (fuel curpos : Nat) (image0 img : Option (List Nat)),
      parseBlocksFuel u body fuel curpos image0 = some (.ok img) →
      img = image0 ∨
        ∃ p, p ∈ blockPositionsFuel body fuel curpos ∧ layerIDAt body p = 0 ∧
          ∃ im, u (payloadAt body p) = some im ∧ im.length = imageSizeAt body p ∧
            img = some im := by
  intro fuel
  induction fuel with
  | zero =>
    intro curpos image0 img h
    simp only [parseBlocksFuel] at h
    split at h
    · simp at h
    · left
      cases h
      rfl
  | succ fuel ih =>
    intro curpos image0 img h
    simp only [parseBlocksFuel] at h
    by_cases hlt : curpos < body.length
    · rw [if_pos hlt] at h
      by_cases hbs : blockSizeAt body curpos < 12
      · rw [if_pos hbs] at h
        simp at h
      · rw [if_neg hbs] at h
        have hpos : blockPositionsFuel body (fuel + 1) curpos =
            curpos :: blockPositionsFuel body fuel (curpos + blockSizeAt body curpos) := by
          simp [blockPositionsFuel, hlt, hbs]
        by_cases hl : layerIDAt body curpos = 0
        · rw [if_pos hl] at h
          rcases hu : u (payloadAt body curpos) with _ | im
          · rw [hu] at h
            simp at h
          · rw [hu] at h
            simp only at h
            by_cases hlen : im.length ≠ imageSizeAt body curpos
            · rw [if_pos hlen] at h
              simp at h
            · rw [if_neg hlen] at h
              rcases ih _ _ _ h with h1 | ⟨p, hp, hl0, im2, hu2, hlen2, him⟩
              · right
                refine ⟨curpos, ?_, hl, im, hu, by omega, h1⟩
                rw [hpos]
                exact List.mem_cons_self _ _
              · right
                refine ⟨p, ?_, hl0, im2, hu2, hlen2, him⟩
                rw [hpos]
                exact List.mem_cons_of_mem _ hp
        · rw [if_neg hl] at h
          rcases ih _ _ _ h with h1 | ⟨p, hp, hl0, im2, hu2, hlen2, him⟩
          · left
            exact h1
          · right
            refine ⟨p, ?_, hl0, im2, hu2, hlen2, him⟩
            rw [hpos]
            exact List.mem_cons_of_mem _ hp
    · rw [if_neg hlt] at h
      left
      cases h
      rfl

/-- C1 (amended): for every successfully decoded Blueprint that has a
logic image, that image is the decompressed payload of one of the walked
blocks with `layerID = 0`, and its length equals that block's declared
`imageSize` — the only length validation the decoder performs; equality
with `width*height*4` is not enforced (see `c1_counterexample`). -/
theorem c1_logicImage_length_matches_declared (u : Uncompress) (body : List Nat)
    (bp : Blueprint) (img : List Nat)
    (hok : parseBlueprintBytes u body = .ok bp) (himg : bp.logicImage = some img) :
    ∃ p, p ∈ blockPositions body ∧ layerIDAt body p = 0 ∧
      u (payloadAt body p) = some img ∧ img.length = imageSizeAt body p := by
  have hrun := parseBlueprintBytes_ok_elim u body bp hok
  rw [himg] at hrun
  rcases parseBlocksFuel_ok_inv u body body.length 17 none (some img) hrun with h1 |
    ⟨p, hp, hl0, im, hu, hlen, him⟩
  · simp at h1
  · obtain rfl : im = img := by injection him.symm
    exact ⟨p, hp, hl0, hu, hlen⟩

/-- C1 witness: the amended statement instantiated on a concrete 1×1
blueprint whose logic layer block sits at offset 17. -/
theorem c1_logicImage_length_matches_declared_witness :
    ∃ p, p ∈ blockPositions c3Body ∧ layerIDAt c3Body p = 0 ∧
      c3U (payloadAt c3Body p) = some [122, 47, 36, 255] ∧
      ([122, 47, 36, 255] : List Nat).length = imageSizeAt c3Body p :=
  c1_logicImage_length_matches_declared c3U c3Body
    { version := 0, checksum := [0, 0, 0, 0, 0, 0], width := 1, height := 1,
      logicImage := some [122, 47, 36, 255] }
    [122, 47, 36, 255] rfl rfl

/-- C4 (amended): for every decoded Blueprint whose logic image has the
invariant length `width*height*4`, the stats scan succeeds, the total of
the per-colour frequency table plus the fully-transparent pixel count is
exactly `width*height`, and the reported used area is exactly the number
of non-transparent pixels. -/
theorem c4_area_roundtrip (u : Uncompress) (body : List Nat) (bp : Blueprint)
    (image : List Nat)
    (_hok : parseBlueprintBytes u body = .ok bp) (_himg : bp.logicImage = some image)
    (hlen : image.length = 4 * (bp.width * bp.height)) :
    ∃ counts area, scanGo [] 0 image = .ok (counts, area) ∧
      sumVals counts + transparentCount image = bp.width * bp.height ∧
      area = opaqueCount image := by
  have hm : image.length % 4 = 0 := by omega
  obtain ⟨c', a', hsc, hsum, harea⟩ := scanGo_spec image.length image le_rfl hm [] 0
  have hot := opaque_add_transparent image.length image le_rfl hm
  have hnil : sumVals ([] : List (Rgba × Nat)) = 0 := rfl
  have hwh : image.length / 4 = bp.width * bp.height := by omega
  exact ⟨c', a', hsc, by omega, by omega⟩

/-- C4 witness: the amended round-trip on a concrete 1×1 blueprint with a
single opaque Bus1 pixel. -/
theorem c4_area_roundtrip_witness :
    ∃ counts area, scanGo [] 0 [122, 47, 36, 255] = .ok (counts, area) ∧
      sumVals counts + transparentCount [122, 47, 36, 255] = 1 * 1 ∧
      area = opaqueCount [122, 47, 36, 255] :=
  c4_area_roundtrip c3U c3Body
    { version := 0, checksum := [0, 0, 0, 0, 0, 0], width := 1, height := 1,
      logicImage := some [122, 47, 36, 255] }
    [122, 47, 36, 255] rfl rfl rfl

/-- C6: when the walked block stream contains no `layerID = 0` block and
decode nevertheless succeeds, the Blueprint's logic image is left unset
(`None`), and both downstream consumers fail cleanly with a Python-level
`TypeError` — `getstats` at `len(None)` and `render` at `bytearray(None)`
— rather than performing any out-of-bounds buffer access. -/
theorem c6_missing_logic_layer (u : Uncompress) (body : List Nat) (bp : Blueprint)
    (hno : ∀ p ∈ blockPositions body, layerIDAt body p ≠ 0)
    (hok : parseBlueprintBytes u body = .ok bp) :
    bp.logicImage = none ∧ getstatsFromBlueprint bp = .error noneLenError ∧
      ∀ ai : AddIcons, renderFromBlueprint ai bp = .error noneBytearrayError := by
  have hrun := parseBlueprintBytes_ok_elim u body bp hok
  have hnone : bp.logicImage = none := by
    rcases parseBlocksFuel_ok_inv u body body.length 17 none bp.logicImage hrun with h1 |
      ⟨p, hp, hl0, _im, _hu, _hlen, _him⟩
    · exact h1
    · exact absurd hl0 (hno p hp)
  refine ⟨hnone, ?_, ?_⟩
  · rw [getstatsFromBlueprint, hnone]
  · intro ai
    rw [renderFromBlueprint, hnone]
    rfl

/-- C6 witness: a concrete 1×1 blueprint whose only block has
`layerID = 1`; decode succeeds with no logic image and both consumers
fail with the modelled `TypeError`s. -/
theorem c6_missing_logic_layer_witness :
    ({ version := 0, checksum := [0, 0, 0, 0, 0, 0], width := 1, height := 1,
       logicImage := none } : Blueprint).logicImage = none ∧
    getstatsFromBlueprint
      { version := 0, checksum := [0, 0, 0, 0, 0, 0], width := 1, height := 1,
        logicImage := none } = .error noneLenError ∧
    ∀ ai : AddIcons, renderFromBlueprint ai
      { version := 0, checksum := [0, 0, 0, 0, 0, 0], width := 1, height := 1,
        logicImage := none } = .error noneBytearrayError :=
  c6_missing_logic_layer c3U (hdr11 ++ [0, 0, 0, 13, 0, 0, 0, 1, 0, 0, 0, 0, 5])
    { version := 0, checksum := [0, 0, 0, 0, 0, 0], width := 1, height := 1,
      logicImage := none }
    (by decide) (by rfl)

/-- C7: the block loop terminates on every input — with fuel at least
`body.length - curpos` it never reaches the out-of-fuel marker, because
each iteration either raises (undersized block, zstd failure, size
mismatch) or advances the cursor by `blockSize ≥ 12 ≥ 1`.  The decoder
runs the loop with fuel `body.length` from offset 17, which this bound
covers, so no input makes the source's `while` loop spin forever. -/
theorem c7_block_loop_terminates (u : Uncompress) (body : List Nat) :
    ∀ (fuel curpos : Nat) (image : Option (List Nat)), body.length ≤ curpos + fuel →
      (parseBlocksFuel u body fuel curpos image).isSome := by
  intro fuel
  induction fuel with
  | zero =>
    intro curpos image h
    have : ¬curpos < body.length := by omega
    simp [parseBlocksFuel, this]
  | succ fuel ih =>
    intro curpos image h
    simp only [parseBlocksFuel]
    by_cases hlt : curpos < body.length
    · rw [if_pos hlt]
      by_cases hbs : blockSizeAt body curpos < 12
      · simp [hbs]
      · rw [if_neg hbs]
        have hstep : body.length ≤ curpos + blockSizeAt body curpos + fuel := by omega
        by_cases hl : layerIDAt body curpos = 0
        · rw [if_pos hl]
          rcases hu : u (payloadAt body curpos) with _ | im
          · simp
          · simp only
            by_cases hlen : im.length ≠ imageSizeAt body curpos
            · simp [hlen]
            · rw [if_neg hlen]
              exact ih _ _ hstep
        · rw [if_neg hl]
          exact ih _ _ hstep
    · simp [hlt]

/-- C7 witness: the termination bound instantiated on a concrete 30-byte
body holding one skipped block. -/
theorem c7_block_loop_terminates_witness :
    (parseBlocksFuel c2uFail (hdr11 ++ [0, 0, 0, 13, 0, 0, 0, 1, 0, 0, 0, 0, 5])
      30 17 none).isSome :=
  c7_block_loop_terminates c2uFail (hdr11 ++ [0, 0, 0, 13, 0, 0, 0, 1, 0, 0, 0, 0, 5])
    30 17 none (by decide)

/-- C5: the printed percentage for a count `n` over `total` pixels is the
half-away-from-zero rounding `⌊100*n/total + 1/2⌋` of the exact ratio
(`int(x + 0.5)` truncation, not banker's rounding), and in particular
`n = 1, total = 200` — an exact ratio of half a percent — reports 1, not
the 0 that round-half-to-even would give. -/
theorem c5_percent_half_up (n total : Nat) (htot : 0 < total) :
    ((percentVal n total : ℤ) = ⌊(100 * (n : ℚ) / (total : ℚ) + 1 / 2 : ℚ)⌋) ∧
    percentVal 1 200 = 1 := by
  constructor
  · have htq : (0 : ℚ) < (total : ℚ) := by exact_mod_cast htot
    have hx : (100 * (n : ℚ) / (total : ℚ) + 1 / 2 : ℚ)
        = ((200 * n + total : ℕ) : ℚ) / ((2 * total : ℕ) : ℚ) := by
      push_cast
      field_simp
      ring
    rw [hx]
    symm
    rw [Int.floor_eq_iff]
    have h2t : (0 : ℚ) < ((2 * total : ℕ) : ℚ) := by
      push_cast
      positivity
    constructor
    · rw [le_div_iff₀ h2t]
      have hnat : percentVal n total * (2 * total) ≤ 200 * n + total :=
        Nat.div_mul_le_self _ _
      exact_mod_cast hnat
    · rw [div_lt_iff₀ h2t]
      have h2tn : 0 < 2 * total := by omega
      have hnat : 200 * n + total < (percentVal n total + 1) * (2 * total) := by
        unfold percentVal
        calc 200 * n + total
            = 2 * total * ((200 * n + total) / (2 * total)) + (200 * n + total) % (2 * total) :=
              (Nat.div_add_mod _ _).symm
          _ < 2 * total * ((200 * n + total) / (2 * total)) + 2 * total :=
              Nat.add_lt_add_left (Nat.mod_lt _ h2tn) _
          _ = ((200 * n + total) / (2 * total) + 1) * (2 * total) := by ring
      exact_mod_cast hnat
  · rfl

/-- C5 witness: the boundary case `n = 1, total = 200` reports 1%. -/
theorem c5_percent_half_up_witness : 0 < 200 ∧ percentVal 1 200 = 1 :=
  ⟨by decide, (c5_percent_half_up 1 200 (by decide)).2⟩

/-- C8: for every width at least 1, the selected zoom is the clamp of
`⌊1400 / width⌋` to `[1, 24]`; it is always in `[1, 24]`, width 1 forces
the maximum zoom 24, and any width above 1400 forces zoom 1. -/
theorem c8_zoom_clamp (width : Nat) (hw : 1 ≤ width) :
    zoomFor width = min (max (1400 / width) 1) 24 ∧
    1 ≤ zoomFor width ∧ zoomFor width ≤ 24 ∧
    (width = 1 → zoomFor width = 24) ∧ (1400 < width → zoomFor width = 1) := by
  have hclamp : ∀ w : Nat, zoomFor w = min (max (1400 / w) 1) 24 := by
    intro w
    unfold zoomFor
    generalize 1400 / w = z
    split_ifs <;> omega
  refine ⟨hclamp width, ?_, ?_, ?_, ?_⟩
  · rw [hclamp]
    omega
  · rw [hclamp]
    omega
  · intro h
    subst h
    rfl
  · intro h
    rw [hclamp, Nat.div_eq_of_lt h]
    decide

/-- C8 witness: width 1 selects the maximum zoom 24. -/
theorem c8_zoom_clamp_witness : 1 ≤ 1 ∧ zoomFor 1 = 24 :=
  ⟨le_refl 1, (c8_zoom_clamp 1 (le_refl 1)).2.2.2.1 rfl⟩

/-- C9: the icon overlay runs exactly when the (clamped) zoom is at least
6.  Below the threshold the output is the background-filled,
nearest-neighbour-zoomed raster and is independent of the icon
compositor; at or above it the compositor is applied once, to the zoomed
canvas and the pre-fill logic rows. -/
theorem c9_icon_overlay_threshold (addIcons : AddIcons) (logic : List Nat)
    (width height zoom : Nat) :
    (zoom < 6 → saveImage addIcons (some logic) width height zoom =
      (fillBackground logic width height).bind
        (fun image => zoomImage image width height (clamp1 zoom))) ∧
    (6 ≤ zoom → saveImage addIcons (some logic) width height zoom =
      (fillBackground logic width height).bind
        (fun image => (zoomImage image width height zoom).map
          (fun pimage => addIcons (chunkRows logic (4 * width)) pimage zoom))) := by
  constructor
  · intro h6
    have hc : ¬6 ≤ clamp1 zoom := by
      unfold clamp1
      split_ifs <;> omega
    rcases hfb : fillBackground logic width height with e | image
    · simp [saveImage, hfb, Except.bind]
    · rcases hz : zoomImage image width height (clamp1 zoom) with e | pimage
      · simp [saveImage, hfb, hz, Except.bind]
      · simp [saveImage, hfb, hz, Except.bind, hc]
  · intro h6
    have hc : clamp1 zoom = zoom := by
      unfold clamp1
      split_ifs <;> omega
    rcases hfb : fillBackground logic width height with e | image
    · simp [saveImage, hfb, Except.bind]
    · rcases hz : zoomImage image width height zoom with e | pimage
      · simp [saveImage, hfb, hc, hz, Except.bind, Except.map]
      · simp [saveImage, hfb, hc, hz, Except.bind, Except.map, h6]

/-- C9 witness: at zoom 2 the render equals the plain zoomed raster; at
zoom 6 the compositor is applied to it. -/
theorem c9_icon_overlay_threshold_witness :
    (saveImage (fun _ p _ => p) (some [122, 47, 36, 255]) 1 1 2 =
      (fillBackground [122, 47, 36, 255] 1 1).bind
        (fun image => zoomImage image 1 1 (clamp1 2))) ∧
    (saveImage (fun _ p _ => p) (some [122, 47, 36, 255]) 1 1 6 =
      (fillBackground [122, 47, 36, 255] 1 1).bind
        (fun image => (zoomImage image 1 1 6).map
          (fun pimage => (fun (_ : List (List Nat)) (p : List Nat) (_ : Nat) => p)
            (chunkRows [122, 47, 36, 255] (4 * 1)) pimage 6))) :=
  ⟨(c9_icon_overlay_threshold (fun _ p _ => p) [122, 47, 36, 255] 1 1 2).1 (by decide),
   (c9_icon_overlay_threshold (fun _ p _ => p) [122, 47, 36, 255] 1 1 6).2 (by decide)⟩

/-- C10: when the base64-decoded body is shorter than the 17-byte header,
every header field is read from whatever bytes are present (Python's
clamping slices, big-endian on the available bytes), the block loop never
runs, and decode either fails with an `InvalidBlueprintException` (the
version or zero-area check) or succeeds with no logic image — never with
an index error. -/
theorem c10_short_header_safe (u : Uncompress) (body : List Nat)
    (hshort : body.length < 17) :
    (∃ msg, parseBlueprintBytes u body = .error (.invalidBlueprint msg)) ∨
    (∃ bp, parseBlueprintBytes u body = .ok bp ∧ bp.logicImage = none) := by
  have h17 : ¬(17 < body.length) := by omega
  have hloop : parseBlocksFuel u body body.length 17 none = some (.ok none) := by
    cases hbl : body.length <;> simp [parseBlocksFuel, h17, hbl ▸ h17]
  unfold parseBlueprintBytes
  by_cases hv : intFromBytesBE (pySlice body 0 3) ≠ 0
  · left
    refine ⟨"Invalid vcb blueprint - unexpected version number: " ++
      toString (intFromBytesBE (pySlice body 0 3)), ?_⟩
    rw [if_pos hv]
  · rw [if_neg hv]
    by_cases hw : intFromBytesBE (pySlice body 9 13) * intFromBytesBE (pySlice body 13 17) = 0
    · left
      refine ⟨"Invalid vcb blueprint - blueprint is 0x0", ?_⟩
      rw [if_pos hw]
    · right
      refine ⟨{ version := intFromBytesBE (pySlice body 0 3), checksum := pySlice body 3 9,
                width := intFromBytesBE (pySlice body 9 13),
                height := intFromBytesBE (pySlice body 13 17), logicImage := none }, ?_, rfl⟩
      rw [if_neg hw, hloop]
      rfl

/-- C10 witness: the empty body fails with the zero-area
`InvalidBlueprintException` (all header fields read as 0), with no index
error. -/
theorem c10_short_header_safe_witness :
    ([] : List Nat).length < 17 ∧
      ((∃ msg, parseBlueprintBytes c2uFail [] = .error (.invalidBlueprint msg)) ∨
       (∃ bp, parseBlueprintBytes c2uFail [] = .ok bp ∧ bp.logicImage = none)) :=
  ⟨by decide, c10_short_header_safe c2uFail [] (by decide)⟩

end VcbBot
